import Mathlib

/-!
Verification of the escalation-notification worker from `run_workflow.py`
(the `send_notification` function, registered as the
`send_escalation_notification` task).

The worker receives its input as a string-keyed payload (a Python dict
whose values are strings; keys may be absent) and returns a string-keyed
result dict.  We embed the payload as an association list, with Python's
`dict.get` semantics, and the result as the literal key/value list the
function builds.
-/

namespace RunWorkflow

/-- A string-keyed payload of string values, as delivered by the task-dispatch
mechanism.  Python dict keys are unique; lookups take the first binding. -/
abbrev Dict := List (String × String)

/-- A value appearing in the worker's result dict: the source stores a boolean,
a list of strings, and strings. -/
inductive PyValue where
  | str : String → PyValue
  | bool : Bool → PyValue
  | strList : List String → PyValue
deriving DecidableEq, Repr

/-- Python's `d.get(k)`: the value bound to `k`, or `None` when absent. -/
def dictGet (d : Dict) (k : String) : Option String :=
  (d.find? (fun p => p.fst == k)).map Prod.snd

/-- Python's `d.get(k, dflt)`: the value bound to `k`, or `dflt` when absent. -/
def dictGetD (d : Dict) (k : String) (dflt : String) : String :=
  (dictGet d k).getD dflt

/-- Lookup in the worker's result dict. -/
def resultGet (r : List (String × PyValue)) (k : String) : Option PyValue :=
  (r.find? (fun p => p.fst == k)).map Prod.snd

/-- Embedding of `send_notification` (run_workflow.py lines 79-102).
The source also reads `ticket_id` and `category` from the payload, but uses
them only in `print` statements, which have no effect on the returned dict. -/
def send_notification (task_input : Dict) : List (String × PyValue) :=
  let urgency := dictGet task_input "urgency"
  let assigned_to := dictGetD task_input "assigned_to" "support-team"
  let notification_channels : List String := []
  let notification_channels :=
    if urgency = some "critical" ∨ urgency = some "high" then
      notification_channels ++ ["slack", "email", "pagerduty"]
    else
      notification_channels ++ ["email"]
  [("notification_sent", PyValue.bool true),
   ("channels", PyValue.strList notification_channels),
   ("timestamp", PyValue.str "2025-01-15T10:30:00Z"),
   ("assigned_team", PyValue.str assigned_to)]

/-- Modelled from the spec: the spec says the result's `timestamp` is "the
instant at which the decision was made" / "the current processing time".  The
source function takes no clock, so this variant receives the current
processing instant `now` explicitly and writes it into `timestamp`; it is
otherwise the same as `send_notification`, and is used only to compare the
spec's description of `timestamp` with the source. -/
def send_notification_timed (now : String) (task_input : Dict) :
    List (String × PyValue) :=
  let urgency := dictGet task_input "urgency"
  let assigned_to := dictGetD task_input "assigned_to" "support-team"
  let notification_channels : List String := []
  let notification_channels :=
    if urgency = some "critical" ∨ urgency = some "high" then
      notification_channels ++ ["slack", "email", "pagerduty"]
    else
      notification_channels ++ ["email"]
  [("notification_sent", PyValue.bool true),
   ("channels", PyValue.strList notification_channels),
   ("timestamp", PyValue.str now),
   ("assigned_team", PyValue.str assigned_to)]

/-- Closed form of `send_notification`: the returned dict, with the channel
list expressed as a single conditional. -/
theorem send_notification_eq (d : Dict) :
    send_notification d =
      [("notification_sent", PyValue.bool true),
       ("channels", PyValue.strList
         (if dictGet d "urgency" = some "critical" ∨
             dictGet d "urgency" = some "high" then
            ["slack", "email", "pagerduty"]
          else
            ["email"])),
       ("timestamp", PyValue.str "2025-01-15T10:30:00Z"),
       ("assigned_team", PyValue.str (dictGetD d "assigned_to" "support-team"))] :=
  rfl

/-- `resultGet` on a dict of the worker's shape: the `channels` entry. -/
theorem resultGet_channels (b : Bool) (cs : List String) (ts team : String) :
    resultGet [("notification_sent", PyValue.bool b),
               ("channels", PyValue.strList cs),
               ("timestamp", PyValue.str ts),
               ("assigned_team", PyValue.str team)] "channels" =
      some (PyValue.strList cs) :=
  rfl

/-- `resultGet` on a dict of the worker's shape: the `assigned_team` entry. -/
theorem resultGet_assigned_team (b : Bool) (cs : List String) (ts team : String) :
    resultGet [("notification_sent", PyValue.bool b),
               ("channels", PyValue.strList cs),
               ("timestamp", PyValue.str ts),
               ("assigned_team", PyValue.str team)] "assigned_team" =
      some (PyValue.str team) :=
  rfl

/-- `resultGet` on a dict of the worker's shape: the `notification_sent` entry. -/
theorem resultGet_notification_sent (b : Bool) (cs : List String) (ts team : String) :
    resultGet [("notification_sent", PyValue.bool b),
               ("channels", PyValue.strList cs),
               ("timestamp", PyValue.str ts),
               ("assigned_team", PyValue.str team)] "notification_sent" =
      some (PyValue.bool b) :=
  rfl

/-- `resultGet` on a dict of the worker's shape: the `timestamp` entry. -/
theorem resultGet_timestamp (b : Bool) (cs : List String) (ts team : String) :
    resultGet [("notification_sent", PyValue.bool b),
               ("channels", PyValue.strList cs),
               ("timestamp", PyValue.str ts),
               ("assigned_team", PyValue.str team)] "timestamp" =
      some (PyValue.str ts) :=
  rfl

/-- Claim C1: for every input payload whose `urgency` value is exactly
"critical" or exactly "high", the result of `send_notification` has `channels`
equal to the ordered sequence ["slack", "email", "pagerduty"]. -/
theorem urgent_ticket_channels (d : Dict)
    (h : dictGet d "urgency" = some "critical" ∨ dictGet d "urgency" = some "high") :
    resultGet (send_notification d) "channels" =
      some (PyValue.strList ["slack", "email", "pagerduty"]) := by
  rw [send_notification_eq, if_pos h, resultGet_channels]

/-- Witness for C1 at a concrete critical-urgency payload. -/
theorem urgent_ticket_channels_witness :
    resultGet (send_notification
      [("ticket_id", "TKT-002"), ("urgency", "critical"),
       ("category", "technical"), ("assigned_to", "technical-support")]) "channels" =
      some (PyValue.strList ["slack", "email", "pagerduty"]) :=
  urgent_ticket_channels _ (Or.inl (by decide))

/-- Claim C2: for every input payload whose `urgency` value is anything other
than exactly "critical" or exactly "high" — including "medium", "low", the
empty string, a missing key, unrecognized strings, and case variants such as
"Critical" — the result has `channels` equal to ["email"]. -/
theorem non_urgent_ticket_channels (d : Dict)
    (h1 : dictGet d "urgency" ≠ some "critical")
    (h2 : dictGet d "urgency" ≠ some "high") :
    resultGet (send_notification d) "channels" = some (PyValue.strList ["email"]) := by
  have h : ¬(dictGet d "urgency" = some "critical" ∨ dictGet d "urgency" = some "high") := by
    rintro (h | h)
    exacts [h1 h, h2 h]
  rw [send_notification_eq, if_neg h, resultGet_channels]

/-- Witness for C2 at a payload whose urgency differs only in letter case. -/
theorem non_urgent_ticket_channels_witness :
    resultGet (send_notification [("ticket_id", "TKT-010"), ("urgency", "Critical")])
        "channels" =
      some (PyValue.strList ["email"]) :=
  non_urgent_ticket_channels _ (by decide) (by decide)

/-- Claim C3: `channels` is fully determined by the `urgency` input alone: any
two payloads with the same `urgency` lookup produce identical `channels`. -/
theorem channels_determined_by_urgency (d e : Dict)
    (h : dictGet d "urgency" = dictGet e "urgency") :
    resultGet (send_notification d) "channels" =
      resultGet (send_notification e) "channels" := by
  rw [send_notification_eq, send_notification_eq,
    resultGet_channels, resultGet_channels, h]

/-- Witness for C3: two payloads differing in ticket_id, category and
assigned_to but sharing urgency give the same channels. -/
theorem channels_determined_by_urgency_witness :
    resultGet (send_notification
      [("ticket_id", "TKT-001"), ("urgency", "high"), ("category", "billing")])
        "channels" =
      resultGet (send_notification
        [("ticket_id", "TKT-002"), ("urgency", "high"),
         ("category", "technical"), ("assigned_to", "ops")]) "channels" :=
  channels_determined_by_urgency _ _ (by decide)

/-- Counterexample to C4 as stated: when `assigned_to` is present but equal to
the empty string, `dict.get(key, default)` returns the empty string, so
`assigned_team` is "" rather than "support-team". -/
theorem assigned_team_empty_not_defaulted :
    resultGet (send_notification
      [("ticket_id", "TKT-004"), ("urgency", "low"), ("assigned_to", "")])
        "assigned_team" =
      some (PyValue.str "") ∧
    PyValue.str "" ≠ PyValue.str "support-team" := by
  exact ⟨by decide, by decide⟩

/-- Claim C4 (amended): `assigned_team` equals the input's `assigned_to` value
whenever that key is present — including when its value is the empty string —
and equals "support-team" only when the key is missing. -/
theorem assigned_team_echoes_or_defaults (d : Dict) :
    (∀ v, dictGet d "assigned_to" = some v →
      resultGet (send_notification d) "assigned_team" = some (PyValue.str v)) ∧
    (dictGet d "assigned_to" = none →
      resultGet (send_notification d) "assigned_team" =
        some (PyValue.str "support-team")) := by
  constructor
  · intro v hv
    rw [send_notification_eq, resultGet_assigned_team]
    simp [dictGetD, hv]
  · intro hn
    rw [send_notification_eq, resultGet_assigned_team]
    simp [dictGetD, hn]

/-- Witness for amended C4 at a payload carrying an explicit team. -/
theorem assigned_team_echoes_or_defaults_witness :
    resultGet (send_notification [("assigned_to", "billing-team")]) "assigned_team" =
      some (PyValue.str "billing-team") :=
  (assigned_team_echoes_or_defaults _).1 "billing-team" (by decide)

/-- Claim C5: `notification_sent` is `true` in the result for every input
payload. -/
theorem notification_sent_always_true (d : Dict) :
    resultGet (send_notification d) "notification_sent" =
      some (PyValue.bool true) := by
  rw [send_notification_eq, resultGet_notification_sent]

/-- Counterexample to C6 as stated: at a processing instant other than
2025-01-15T10:30:00Z (here 2026-10-12T00:00:00Z), the source function still
returns the literal 2025-01-15T10:30:00Z, while the spec-modelled variant that
writes the current processing instant returns that instant; the two differ. -/
theorem timestamp_not_processing_time :
    resultGet (send_notification [("ticket_id", "TKT-001"), ("urgency", "high")])
        "timestamp" =
      some (PyValue.str "2025-01-15T10:30:00Z") ∧
    resultGet (send_notification_timed "2026-10-12T00:00:00Z"
        [("ticket_id", "TKT-001"), ("urgency", "high")]) "timestamp" =
      some (PyValue.str "2026-10-12T00:00:00Z") ∧
    PyValue.str "2025-01-15T10:30:00Z" ≠ PyValue.str "2026-10-12T00:00:00Z" := by
  exact ⟨by decide, by decide, by decide⟩

/-- Claim C6 (amended): the `timestamp` field of the result is always the
fixed literal string "2025-01-15T10:30:00Z", independent of the input and of
the actual processing time. -/
theorem timestamp_constant_literal (d : Dict) :
    resultGet (send_notification d) "timestamp" =
      some (PyValue.str "2025-01-15T10:30:00Z") := by
  rw [send_notification_eq, resultGet_timestamp]

/-- Claim C7: `send_notification` is total over string-keyed payloads: every
payload yields a well-formed result, with the non-urgent channel fallback when
`urgency` is missing and the default team when `assigned_to` is missing,
rather than any failure. -/
theorem send_notification_total (d : Dict) :
    ∃ cs team, send_notification d =
      [("notification_sent", PyValue.bool true),
       ("channels", PyValue.strList cs),
       ("timestamp", PyValue.str "2025-01-15T10:30:00Z"),
       ("assigned_team", PyValue.str team)] ∧
      (dictGet d "urgency" = none → cs = ["email"]) ∧
      (dictGet d "assigned_to" = none → team = "support-team") := by
  refine ⟨_, _, send_notification_eq d, ?_, ?_⟩
  · intro h
    rw [h]
    rfl
  · intro h
    simp [dictGetD, h]

/-- Witness for C7 at the empty payload: all fallbacks fire and a result is
still produced. -/
theorem send_notification_total_witness :
    ∃ cs team, send_notification ([] : Dict) =
      [("notification_sent", PyValue.bool true),
       ("channels", PyValue.strList cs),
       ("timestamp", PyValue.str "2025-01-15T10:30:00Z"),
       ("assigned_team", PyValue.str team)] ∧
      (dictGet ([] : Dict) "urgency" = none → cs = ["email"]) ∧
      (dictGet ([] : Dict) "assigned_to" = none → team = "support-team") :=
  send_notification_total []

/-- Claim C8: `send_notification` is a pure function of the mapping its input
represents: two payloads that agree as mappings (equal lookups at every key)
produce equal results in full — the result depends on no other state. -/
theorem send_notification_extensional (d e : Dict)
    (h : ∀ k, dictGet d k = dictGet e k) :
    send_notification d = send_notification e := by
  rw [send_notification_eq, send_notification_eq, h "urgency"]
  simp [dictGetD, h "assigned_to"]

/-- Witness for C8: two distinct association lists representing the same
mapping give the same result. -/
theorem send_notification_extensional_witness :
    send_notification [("ticket_id", "TKT-001"), ("urgency", "high")] =
      send_notification [("urgency", "high"), ("ticket_id", "TKT-001")] := by
  refine send_notification_extensional _ _ (fun k => ?_)
  simp only [dictGet, List.find?]
  cases hb1 : (("ticket_id" : String) == k) <;> cases hb2 : (("urgency" : String) == k) <;>
    simp_all
  exact absurd (hb1.trans hb2.symm) (by decide)

/-- Claim C9: the result contains exactly the four keys notification_sent,
channels, timestamp and assigned_team, in that order; and the result does not
depend on the `ticket_id` or `category` inputs — payloads agreeing on
`urgency` and `assigned_to` lookups give identical results. -/
theorem result_keys_exact (d e : Dict)
    (hu : dictGet d "urgency" = dictGet e "urgency")
    (ha : dictGet d "assigned_to" = dictGet e "assigned_to") :
    (send_notification d).map Prod.fst =
      ["notification_sent", "channels", "timestamp", "assigned_team"] ∧
    send_notification d = send_notification e := by
  constructor
  · rw [send_notification_eq]
    rfl
  · rw [send_notification_eq, send_notification_eq, hu]
    simp [dictGetD, ha]

/-- Witness for C9: payloads differing only in ticket_id and category. -/
theorem result_keys_exact_witness :
    (send_notification
      [("ticket_id", "TKT-005"), ("category", "billing"), ("urgency", "low")]).map
        Prod.fst =
      ["notification_sent", "channels", "timestamp", "assigned_team"] ∧
    send_notification
      [("ticket_id", "TKT-005"), ("category", "billing"), ("urgency", "low")] =
      send_notification
        [("ticket_id", "TKT-006"), ("category", "technical"), ("urgency", "low")] :=
  result_keys_exact _ _ (by decide) (by decide)

/-- Claim C10: the `timestamp` field of the result is the same fixed literal
string "2025-01-15T10:30:00Z" for every input payload. -/
theorem timestamp_is_fixed_string (d : Dict) :
    resultGet (send_notification d) "timestamp" =
      some (PyValue.str "2025-01-15T10:30:00Z") := by
  rw [send_notification_eq, resultGet_timestamp]

end RunWorkflow
